import Mathlib

/-!
Verification of the access-control state machine of the SECURE IOT SENTINEL
firmware (AQI monitor).  The sentinel firmware keeps two boolean flags
(`isLocked`, `isDisabled`), a volatile violation counter (`failedAttempts`)
and a persisted copy of that counter in NVS (`Preferences securityLog`,
key "fails").  Every loop iteration polls the manual buttons
(`checkManualButton`), then the LoRa radio (`checkLoRaPassword`), and then
enters the never-returning `triggerSystemLockdown` when `isDisabled` holds.
The companion key-fob transmitter is modelled at the end.
-/

/-- C whitespace classifier used by Arduino `String::trim` (`isspace`):
space, tab, newline, vertical tab, form feed, carriage return. -/
def isSpace (c : Char) : Bool :=
  c = ' ' || c = '\t' || c = '\n' || c = '\x0b' || c = '\x0c' || c = '\r'

/-- Arduino `String::trim`: drop leading and trailing whitespace. -/
def trim (s : List Char) : List Char :=
  ((s.dropWhile isSpace).reverse.dropWhile isSpace).reverse

/-- `const int MAX_ATTEMPTS = 3;` -/
def MAX_ATTEMPTS : Nat := 3

/-- `String consolePassword = "admin";` -/
def consolePassword : List Char := "admin".data

/-- The security-relevant machine state of the sentinel firmware:
the two global flags, the volatile counter, the NVS value stored under
key "fails" (`securityLog`), and whether `triggerSystemLockdown`'s
infinite loop has been entered (after which no further input is polled). -/
structure SentinelState where
  isLocked : Bool
  isDisabled : Bool
  failedAttempts : Nat
  fails : Nat
  halted : Bool
deriving Repr, DecidableEq

/-- `performRemoteLock()`: sets `isLocked = true`; counter and NVS untouched. -/
def performRemoteLock (s : SentinelState) : SentinelState :=
  { s with isLocked := true }

/-- `checkManualButton()`: on a button press, if locked perform the manual
unlock (clear counter, write 0 to NVS), otherwise lock.  `writeOk` models
whether the `putInt` call durably commits; its result is ignored by the
firmware. -/
def checkManualButton (buttonPressed : Bool) (writeOk : Bool)
    (s : SentinelState) : SentinelState :=
  if buttonPressed then
    if s.isLocked then
      { s with isLocked := false, failedAttempts := 0,
               fails := if writeOk then 0 else s.fails }
    else
      performRemoteLock s
  else s

/-- `checkLoRaPassword()`: `msg = some payload` models `LoRa.parsePacket`
returning a packet with the given bytes; the body runs only when the packet
size is nonzero.  The payload is trimmed and compared to `consolePassword`;
a match unlocks (when locked) or remote-locks (when unlocked); a mismatch
while locked increments the counter, writes it to NVS and raises
`isDisabled` once the counter reaches `MAX_ATTEMPTS`. -/
def checkLoRaPassword (msg : Option (List Char)) (writeOk : Bool)
    (s : SentinelState) : SentinelState :=
  match msg with
  | none => s
  | some payload =>
    if payload.length ≠ 0 then
      let received := trim payload
      if received = consolePassword then
        if s.isLocked then
          { s with isLocked := false, failedAttempts := 0,
                   fails := if writeOk then 0 else s.fails }
        else
          performRemoteLock s
      else
        if s.isLocked then
          let f := s.failedAttempts + 1
          { s with failedAttempts := f,
                   fails := if writeOk then f else s.fails,
                   isDisabled := if f ≥ MAX_ATTEMPTS then true else s.isDisabled }
        else s
    else s

/-- End of `loop()`: when `isDisabled` holds, `triggerSystemLockdown()` is
entered and never returns; we record this as `halted`. -/
def haltCheck (s : SentinelState) : SentinelState :=
  if s.isDisabled then { s with halted := true } else s

/-- The external input of one `loop()` iteration: whether a button is
pressed and the pending radio packet, if any. -/
structure LoopEvent where
  button : Bool
  msg : Option (List Char)
deriving Repr, DecidableEq

/-- One iteration of `loop()` with explicit write outcome: once halted,
no further input is polled; otherwise the buttons are checked, then the
radio, and finally the lockdown branch. -/
def loopStepF (writeOk : Bool) (ev : LoopEvent) (s : SentinelState) :
    SentinelState :=
  if s.halted then s
  else haltCheck (checkLoRaPassword ev.msg writeOk
                   (checkManualButton ev.button writeOk s))

/-- One iteration of `loop()` with all NVS writes succeeding. -/
def loopStep (ev : LoopEvent) (s : SentinelState) : SentinelState :=
  loopStepF true ev s

/-- Running the loop over a finite list of per-iteration inputs. -/
def run (s : SentinelState) (evs : List LoopEvent) : SentinelState :=
  evs.foldl (fun t e => loopStep e t) s

/-- `setup()`: when BOOT is held at power-up the NVS log is cleared
(factory reset); then `failedAttempts = securityLog.getInt("fails", 0)` and
`isDisabled` is raised when the restored counter has reached
`MAX_ATTEMPTS`.  `c` is the persisted "fails" value before boot. -/
def setup (c : Nat) (bootButtonHeld : Bool) : SentinelState :=
  let stored := if bootButtonHeld then 0 else c
  { isLocked := true
    isDisabled := decide (stored ≥ MAX_ATTEMPTS)
    failedAttempts := stored
    fails := stored
    halted := false }

/-- A loop iteration whose only input is one radio packet. -/
def radioEv (w : List Char) : LoopEvent := { button := false, msg := some w }

/-- Key fob, method 1: a physical button press sends the literal packet
`"admin"` (`LoRa.print("admin")`). -/
def fobButtonMessage : List Char := "admin".data

/-- Key fob, method 2: a console line is trimmed and transmitted only when
the trimmed result is non-empty (`if (input.length() > 0)`). -/
def fobConsoleMessage (line : List Char) : Option (List Char) :=
  let input := trim line
  if input.length > 0 then some input else none

/-- Invariant: whenever the machine is unlocked, the volatile counter and
the persisted counter are both 0 (both unlock paths write 0 to NVS, and no
branch touches the counter while unlocked). -/
def CounterZeroWhenUnlocked (s : SentinelState) : Prop :=
  s.isLocked = false → s.failedAttempts = 0 ∧ s.fails = 0

/-! ### Helper lemmas -/

lemma run_nil (s : SentinelState) : run s [] = s := rfl

lemma run_cons (s : SentinelState) (e : LoopEvent) (es : List LoopEvent) :
    run s (e :: es) = run (loopStep e s) es := rfl

lemma loopStep_halted (ev : LoopEvent) (s : SentinelState)
    (h : s.halted = true) : loopStep ev s = s := by
  simp [loopStep, loopStepF, h]

lemma run_halted (s : SentinelState) (h : s.halted = true)
    (evs : List LoopEvent) : run s evs = s := by
  induction evs with
  | nil => rfl
  | cons e es ih => rw [run_cons, loopStep_halted e s h]; exact ih

lemma violation_step (s : SentinelState) (w : List Char)
    (hH : s.halted = false) (hL : s.isLocked = true)
    (hw : w ≠ []) (hm : trim w ≠ consolePassword) :
    loopStep (radioEv w) s =
      { s with failedAttempts := s.failedAttempts + 1,
               fails := s.failedAttempts + 1,
               isDisabled :=
                 decide (s.failedAttempts + 1 ≥ MAX_ATTEMPTS) || s.isDisabled,
               halted :=
                 decide (s.failedAttempts + 1 ≥ MAX_ATTEMPTS) || s.isDisabled } := by
  obtain ⟨l, d, f, st, hb⟩ := s
  simp only at hH hL
  subst hH hL
  have hlen : w.length ≠ 0 := by
    simpa [List.length_eq_zero] using hw
  simp only [loopStep, loopStepF, radioEv, checkManualButton, checkLoRaPassword,
    haltCheck, if_pos hlen, if_neg hm]
  by_cases hge : f + 1 ≥ MAX_ATTEMPTS
  · simp [hge]
  · simp [hge]
    cases d <;> simp

lemma unlock_step (s : SentinelState) (w : List Char)
    (hH : s.halted = false) (hL : s.isLocked = true)
    (hw : w ≠ []) (hm : trim w = consolePassword) :
    loopStep (radioEv w) s =
      { s with isLocked := false, failedAttempts := 0, fails := 0,
               halted := s.isDisabled } := by
  obtain ⟨l, d, f, st, hb⟩ := s
  simp only at hH hL
  subst hH hL
  have hlen : w.length ≠ 0 := by
    simpa [List.length_eq_zero] using hw
  simp only [loopStep, loopStepF, radioEv, checkManualButton, checkLoRaPassword,
    haltCheck, if_pos hlen, if_pos hm]
  cases d <;> simp

lemma trim_all_space (w : List Char) (h : ∀ c ∈ w, isSpace c = true) :
    trim w = [] := by
  have h1 : w.dropWhile isSpace = [] := List.dropWhile_eq_nil_iff.2 h
  simp [trim, h1]

lemma cz_button (b : Bool) (s : SentinelState)
    (hs : CounterZeroWhenUnlocked s) :
    CounterZeroWhenUnlocked (checkManualButton b true s) := by
  obtain ⟨l, d, f, st, hb⟩ := s
  cases b <;> cases l <;>
    simp_all [CounterZeroWhenUnlocked, checkManualButton, performRemoteLock]

lemma cz_radio (m : Option (List Char)) (s : SentinelState)
    (hs : CounterZeroWhenUnlocked s) :
    CounterZeroWhenUnlocked (checkLoRaPassword m true s) := by
  obtain ⟨l, d, f, st, hb⟩ := s
  cases m with
  | none => exact hs
  | some payload =>
    by_cases hlen : payload.length ≠ 0
    · by_cases hm : trim payload = consolePassword
      · cases l
        · intro h
          simp [checkLoRaPassword, performRemoteLock, hlen, hm] at h
        · intro _
          simp [checkLoRaPassword, hlen, hm]
      · cases l
        · have he : checkLoRaPassword (some payload) true ⟨false, d, f, st, hb⟩ =
              ⟨false, d, f, st, hb⟩ := by
            simp [checkLoRaPassword, hlen, hm]
          rw [he]; exact hs
        · intro h
          simp [checkLoRaPassword, hlen, hm] at h
    · have he : checkLoRaPassword (some payload) true ⟨l, d, f, st, hb⟩ =
          ⟨l, d, f, st, hb⟩ := by
        simp only [checkLoRaPassword, if_neg hlen]
      rw [he]; exact hs

lemma cz_halt (s : SentinelState) (hs : CounterZeroWhenUnlocked s) :
    CounterZeroWhenUnlocked (haltCheck s) := by
  obtain ⟨l, d, f, st, hb⟩ := s
  cases d <;> simp_all [CounterZeroWhenUnlocked, haltCheck]

lemma cz_loopStep (ev : LoopEvent) (s : SentinelState)
    (hs : CounterZeroWhenUnlocked s) :
    CounterZeroWhenUnlocked (loopStep ev s) := by
  unfold loopStep loopStepF
  split
  · exact hs
  · exact cz_halt _ (cz_radio _ _ (cz_button _ _ hs))

lemma cz_run (s : SentinelState) (evs : List LoopEvent)
    (hs : CounterZeroWhenUnlocked s) :
    CounterZeroWhenUnlocked (run s evs) := by
  induction evs generalizing s with
  | nil => exact hs
  | cons e es ih => rw [run_cons]; exact ih _ (cz_loopStep e s hs)

lemma cz_setup (c : Nat) (fr : Bool) :
    CounterZeroWhenUnlocked (setup c fr) := by
  intro h
  simp [setup] at h

lemma remote_lock_step (s : SentinelState) (w : List Char)
    (hH : s.halted = false) (hU : s.isLocked = false)
    (hw : w ≠ []) (hm : trim w = consolePassword) :
    loopStep (radioEv w) s =
      { s with isLocked := true, halted := s.isDisabled } := by
  obtain ⟨l, d, f, st, hb⟩ := s
  simp only at hH hU
  subst hH hU
  have hlen : w.length ≠ 0 := by
    simpa [List.length_eq_zero] using hw
  simp only [loopStep, loopStepF, radioEv, checkManualButton, checkLoRaPassword,
    performRemoteLock, haltCheck, if_pos hlen, if_pos hm]
  cases d <;> simp

/-! ### Claims -/

/-- Claim C1: while the machine is Locked, each radio message that does not
match the credential increments the violation counter by exactly 1 and
writes the new value to the persistent store; starting from a fresh boot
(persisted counter 0), after exactly MAX_ATTEMPTS (3) such non-matching
messages the state is Disabled and remains Disabled for every further
radio or button input within the same boot session. -/
theorem c1_brute_force_lockout (s : SentinelState) (w w1 w2 w3 : List Char)
    (hH : s.halted = false) (hL : s.isLocked = true) (hD : s.isDisabled = false)
    (hw : w ≠ []) (hm : trim w ≠ consolePassword)
    (hw1 : w1 ≠ []) (hm1 : trim w1 ≠ consolePassword)
    (hw2 : w2 ≠ []) (hm2 : trim w2 ≠ consolePassword)
    (hw3 : w3 ≠ []) (hm3 : trim w3 ≠ consolePassword) :
    ((loopStep (radioEv w) s).failedAttempts = s.failedAttempts + 1 ∧
     (loopStep (radioEv w) s).fails = s.failedAttempts + 1) ∧
    (run (setup 0 false) [radioEv w1, radioEv w2, radioEv w3]).isDisabled = true ∧
    (run (setup 0 false) [radioEv w1, radioEv w2, radioEv w3]).failedAttempts = 3 ∧
    (run (setup 0 false) [radioEv w1, radioEv w2, radioEv w3]).fails = 3 ∧
    ∀ evs : List LoopEvent,
      run (run (setup 0 false) [radioEv w1, radioEv w2, radioEv w3]) evs =
        run (setup 0 false) [radioEv w1, radioEv w2, radioEv w3] := by
  have e1 : loopStep (radioEv w1) (setup 0 false) = ⟨true, false, 1, 1, false⟩ := by
    rw [violation_step _ _ rfl rfl hw1 hm1]; rfl
  have e2 : loopStep (radioEv w2) (⟨true, false, 1, 1, false⟩ : SentinelState) =
      ⟨true, false, 2, 2, false⟩ := by
    rw [violation_step _ _ rfl rfl hw2 hm2]; rfl
  have e3 : loopStep (radioEv w3) (⟨true, false, 2, 2, false⟩ : SentinelState) =
      ⟨true, true, 3, 3, true⟩ := by
    rw [violation_step _ _ rfl rfl hw3 hm3]; rfl
  have hrun : run (setup 0 false) [radioEv w1, radioEv w2, radioEv w3] =
      ⟨true, true, 3, 3, true⟩ := by
    rw [run_cons, e1, run_cons, e2, run_cons, e3, run_nil]
  refine ⟨?_, ?_, ?_, ?_, ?_⟩
  · rw [violation_step _ _ hH hL hw hm]
    exact ⟨rfl, rfl⟩
  · rw [hrun]
  · rw [hrun]
  · rw [hrun]
  · intro evs
    rw [hrun]
    exact run_halted _ rfl evs

/-- Witness for C1 at the concrete payload "x" and a concrete further
input (a button press together with a matching packet). -/
theorem c1_brute_force_lockout_witness :
    ((loopStep (radioEv ("x".data)) (setup 0 false)).failedAttempts =
        (setup 0 false).failedAttempts + 1 ∧
     (loopStep (radioEv ("x".data)) (setup 0 false)).fails =
        (setup 0 false).failedAttempts + 1) ∧
    (run (setup 0 false)
      [radioEv ("x".data), radioEv ("x".data), radioEv ("x".data)]).isDisabled = true ∧
    (run (setup 0 false)
      [radioEv ("x".data), radioEv ("x".data), radioEv ("x".data)]).failedAttempts = 3 ∧
    (run (setup 0 false)
      [radioEv ("x".data), radioEv ("x".data), radioEv ("x".data)]).fails = 3 ∧
    run (run (setup 0 false)
        [radioEv ("x".data), radioEv ("x".data), radioEv ("x".data)])
      [{ button := true, msg := some ("admin".data) }] =
      run (setup 0 false)
        [radioEv ("x".data), radioEv ("x".data), radioEv ("x".data)] := by
  have h := c1_brute_force_lockout (setup 0 false)
    ("x".data) ("x".data) ("x".data) ("x".data) rfl rfl rfl
    (by decide) (by decide) (by decide) (by decide)
    (by decide) (by decide) (by decide) (by decide)
  exact ⟨h.1, h.2.1, h.2.2.1, h.2.2.2.1,
    h.2.2.2.2 [{ button := true, msg := some ("admin".data) }]⟩

/-- Claim C2 (code bug): when the Disabled state is restored from a
persisted counter of 3 at boot, the first loop iteration still polls the
buttons and the radio before reaching the lockdown branch; a button press
there runs the manual-unlock path, clearing the counter in memory and in
the persistent store, so a subsequent restart boots Locked with counter 0
— Disabled is exited without a factory reset, contradicting the claim
that all input is a no-op while Disabled. -/
theorem c2_lockdown_bypass_at_boot :
    (setup 3 false).isDisabled = true ∧
    loopStep { button := true, msg := none } (setup 3 false) =
      ⟨false, true, 0, 0, true⟩ ∧
    (setup ((loopStep { button := true, msg := none } (setup 3 false)).fails)
        false).isDisabled = false ∧
    (setup ((loopStep { button := true, msg := none } (setup 3 false)).fails)
        false).isLocked = true := by
  decide

/-- Claim C3: booting without the factory-reset condition restores the
counter from the store unchanged: the machine starts Locked with the
persisted counter, and is Disabled exactly when that counter is at least
MAX_ATTEMPTS; the persisted value itself is untouched. -/
theorem c3_restart_invariance (c : Nat) :
    (setup c false).isLocked = true ∧
    (setup c false).isDisabled = decide (c ≥ MAX_ATTEMPTS) ∧
    (setup c false).failedAttempts = c ∧
    (setup c false).fails = c ∧
    (setup c false).halted = false :=
  ⟨rfl, rfl, rfl, rfl, rfl⟩

/-- Claim C4: a radio packet is accepted as a credential match if and only
if its payload, trimmed of surrounding whitespace, is exactly equal to the
credential (case-sensitive list-of-characters equality); an accepted match
while Locked yields Unlocked with the violation counter reset to 0 both in
memory and in the persistent store. -/
theorem c4_credential_match (s : SentinelState) (w : List Char)
    (hL : s.isLocked = true) (hD : s.isDisabled = false)
    (hH : s.halted = false) (hw : w ≠ []) :
    ((loopStep (radioEv w) s).isLocked = false ↔ trim w = consolePassword) ∧
    (trim w = consolePassword →
      (loopStep (radioEv w) s).failedAttempts = 0 ∧
      (loopStep (radioEv w) s).fails = 0 ∧
      (loopStep (radioEv w) s).isDisabled = false ∧
      (loopStep (radioEv w) s).halted = false) := by
  by_cases hm : trim w = consolePassword
  · rw [unlock_step s w hH hL hw hm]
    refine ⟨by simp [hm], fun _ => ⟨rfl, rfl, hD, hD⟩⟩
  · rw [violation_step s w hH hL hw hm]
    refine ⟨?_, fun h => absurd h hm⟩
    simp [hm, hL]

/-- Witness for C4: the padded payload " admin〔tab〕" is accepted from
Locked with counter 2, while the statement's match condition is checked at
that concrete input. -/
theorem c4_credential_match_witness :
    ((loopStep (radioEv (" admin\t".data)) (setup 2 false)).isLocked = false ↔
      trim (" admin\t".data) = consolePassword) ∧
    (trim (" admin\t".data) = consolePassword →
      (loopStep (radioEv (" admin\t".data)) (setup 2 false)).failedAttempts = 0 ∧
      (loopStep (radioEv (" admin\t".data)) (setup 2 false)).fails = 0 ∧
      (loopStep (radioEv (" admin\t".data)) (setup 2 false)).isDisabled = false ∧
      (loopStep (radioEv (" admin\t".data)) (setup 2 false)).halted = false) :=
  c4_credential_match _ _ rfl rfl rfl (by decide)

/-- Claim C5: in any reachable unlocked machine state, a matching radio
packet locks the machine again and both the volatile and the persisted
counter are 0 afterwards (they are already 0 in every reachable unlocked
state, and the remote-lock path does not touch them). -/
theorem c5_remote_lock_to_locked_zero (c : Nat) (fr : Bool)
    (evs : List LoopEvent) (w : List Char)
    (hU : (run (setup c fr) evs).isLocked = false)
    (hH : (run (setup c fr) evs).halted = false)
    (hw : w ≠ []) (hm : trim w = consolePassword) :
    (loopStep (radioEv w) (run (setup c fr) evs)).isLocked = true ∧
    (loopStep (radioEv w) (run (setup c fr) evs)).failedAttempts = 0 ∧
    (loopStep (radioEv w) (run (setup c fr) evs)).fails = 0 := by
  obtain ⟨hf, hst⟩ := cz_run (setup c fr) evs (cz_setup c fr) hU
  rw [remote_lock_step _ _ hH hU hw hm]
  exact ⟨rfl, hf, hst⟩

/-- Witness for C5: boot with a clean store, manually unlock with a button
press, then receive the packet "admin". -/
theorem c5_remote_lock_to_locked_zero_witness :
    (loopStep (radioEv ("admin".data))
      (run (setup 0 false) [{ button := true, msg := none }])).isLocked = true ∧
    (loopStep (radioEv ("admin".data))
      (run (setup 0 false) [{ button := true, msg := none }])).failedAttempts = 0 ∧
    (loopStep (radioEv ("admin".data))
      (run (setup 0 false) [{ button := true, msg := none }])).fails = 0 :=
  c5_remote_lock_to_locked_zero 0 false [{ button := true, msg := none }]
    ("admin".data) (by decide) (by decide) (by decide) (by decide)

/-- Claim C6 is refuted by the code: the firmware ignores the result of
`securityLog.putInt`.  At the concrete input below (fresh boot, wrong
packet "wrong", failing NVS write) the in-memory counter still changes
from 0 to 1 while the persisted value stays 0 — the transition is not
rolled back and the two counters diverge. -/
theorem c6_rollback_counterexample :
    (loopStepF false (radioEv ("wrong".data)) (setup 0 false)).failedAttempts = 1 ∧
    (loopStepF false (radioEv ("wrong".data)) (setup 0 false)).fails = 0 ∧
    (setup 0 false).failedAttempts = 0 ∧
    (setup 0 false).fails = 0 := by
  decide

/-- Claim C6 (amended): when the persistent-store write fails during a
transition, the firmware behaves exactly as on a successful write except
that the persisted value keeps its old contents — the in-memory state and
counter are updated anyway (the write result is ignored), so the volatile
and persisted counters can diverge. -/
theorem c6_write_failure_ignored (ev : LoopEvent) (s : SentinelState) :
    loopStepF false ev s = { loopStepF true ev s with fails := s.fails } := by
  obtain ⟨btn, msg⟩ := ev
  obtain ⟨l, d, f, st, hb⟩ := s
  cases hb
  case true => rfl
  case false =>
    rcases msg with _ | w
    · cases btn <;> cases l <;> cases d <;>
        simp [loopStepF, checkManualButton, checkLoRaPassword,
          performRemoteLock, haltCheck]
    · by_cases h1 : w.length ≠ 0
      · by_cases h2 : trim w = consolePassword
        · cases btn <;> cases l <;> cases d <;>
            simp [loopStepF, checkManualButton, checkLoRaPassword,
              performRemoteLock, haltCheck, h1, h2]
        · cases btn <;> cases l <;> cases d <;>
            simp [loopStepF, checkManualButton, checkLoRaPassword,
              performRemoteLock, haltCheck, h1, h2, MAX_ATTEMPTS] <;>
            split_ifs <;> rfl
      · cases btn <;> cases l <;> cases d <;>
          simp [loopStepF, checkManualButton, checkLoRaPassword,
            performRemoteLock, haltCheck, h1]

/-- Claim C7: when the BOOT button is held at power-up, the persisted
counter is cleared before normal initialization, so for every previously
persisted value — including 3 — the machine boots Locked with counter 0
in memory and in the store, not Disabled. -/
theorem c7_factory_reset (c : Nat) :
    (setup c true).isLocked = true ∧
    (setup c true).isDisabled = false ∧
    (setup c true).failedAttempts = 0 ∧
    (setup c true).fails = 0 ∧
    (setup c true).halted = false :=
  ⟨rfl, rfl, rfl, rfl, rfl⟩

/-- Claim C8: a non-matching radio packet received while the machine is
Unlocked changes nothing at all: the whole machine state, including the
volatile and persisted counters, is exactly as before. -/
theorem c8_unlocked_ignores_mismatch (s : SentinelState) (w : List Char)
    (hU : s.isLocked = false) (hD : s.isDisabled = false)
    (hH : s.halted = false) (hm : trim w ≠ consolePassword) :
    loopStep (radioEv w) s = s := by
  obtain ⟨l, d, f, st, hb⟩ := s
  simp only at hU hD hH
  subst hU hD hH
  by_cases hlen : w.length ≠ 0
  · simp [loopStep, loopStepF, radioEv, checkManualButton, checkLoRaPassword,
      haltCheck, hlen, hm]
  · simp [loopStep, loopStepF, radioEv, checkManualButton, checkLoRaPassword,
      haltCheck, hlen]

/-- Witness for C8: the packet "wrong" received in a concrete unlocked
state leaves it untouched. -/
theorem c8_unlocked_ignores_mismatch_witness :
    loopStep (radioEv ("wrong".data))
        (⟨false, false, 0, 0, false⟩ : SentinelState) =
      ⟨false, false, 0, 0, false⟩ :=
  c8_unlocked_ignores_mismatch _ _ rfl rfl rfl (by decide)

/-- Claim C9: a non-empty packet consisting only of whitespace trims to
the empty string, compares unequal to the credential, and is therefore
counted while Locked exactly like any other wrong guess: the counter is
incremented by one and the new value persisted. -/
theorem c9_whitespace_packet_is_violation (s : SentinelState) (w : List Char)
    (hL : s.isLocked = true) (hD : s.isDisabled = false)
    (hH : s.halted = false) (hw : w ≠ [])
    (hws : ∀ c ∈ w, isSpace c = true) :
    trim w = [] ∧
    (loopStep (radioEv w) s).failedAttempts = s.failedAttempts + 1 ∧
    (loopStep (radioEv w) s).fails = s.failedAttempts + 1 := by
  have ht : trim w = [] := trim_all_space w hws
  have hm : trim w ≠ consolePassword := by rw [ht]; decide
  rw [violation_step s w hH hL hw hm]
  exact ⟨ht, rfl, rfl⟩

/-- Witness for C9: a packet of two spaces received at a fresh boot. -/
theorem c9_whitespace_packet_is_violation_witness :
    trim ("  ".data) = [] ∧
    (loopStep (radioEv ("  ".data)) (setup 0 false)).failedAttempts =
      (setup 0 false).failedAttempts + 1 ∧
    (loopStep (radioEv ("  ".data)) (setup 0 false)).fails =
      (setup 0 false).failedAttempts + 1 :=
  c9_whitespace_packet_is_violation _ _ rfl rfl rfl (by decide) (by decide)

/-- Claim C10: the key fob never transmits an empty packet: the physical
button sends exactly "admin", and a console line is sent only when its
trimmed form is non-empty, in which case the trimmed string itself is
transmitted. -/
theorem c10_fob_never_sends_empty :
    fobButtonMessage = "admin".data ∧
    (∀ line m : List Char,
      fobConsoleMessage line = some m → m = trim line ∧ m ≠ []) ∧
    (∀ line : List Char, fobConsoleMessage line = none → trim line = []) := by
  refine ⟨rfl, ?_, ?_⟩
  · intro line m h
    simp only [fobConsoleMessage] at h
    split at h
    next hl =>
      injection h with h
      subst h
      refine ⟨rfl, fun he => ?_⟩
      rw [he] at hl
      simp at hl
    next => exact Option.noConfusion h
  · intro line h
    simp only [fobConsoleMessage] at h
    split at h
    next => exact Option.noConfusion h
    next hl =>
      have : (trim line).length = 0 := Nat.eq_zero_of_not_pos hl
      exact List.length_eq_zero.1 this

/-- Witness for C10: the console line "〔spaces〕hi〔space〕" is sent as
"hi", and a line of a single space is not sent. -/
theorem c10_fob_never_sends_empty_witness :
    ("hi".data = trim ("  hi ".data) ∧ "hi".data ≠ ([] : List Char)) ∧
    trim (" ".data) = [] :=
  ⟨c10_fob_never_sends_empty.2.1 ("  hi ".data) ("hi".data) (by decide),
   c10_fob_never_sends_empty.2.2 (" ".data) (by decide)⟩

/-- Witness for C3 at the persisted values 2 and 3. -/
theorem c3_restart_invariance_witness :
    ((setup 2 false).isLocked = true ∧
     (setup 2 false).isDisabled = decide (2 ≥ MAX_ATTEMPTS) ∧
     (setup 2 false).failedAttempts = 2 ∧
     (setup 2 false).fails = 2 ∧
     (setup 2 false).halted = false) ∧
    ((setup 3 false).isLocked = true ∧
     (setup 3 false).isDisabled = decide (3 ≥ MAX_ATTEMPTS) ∧
     (setup 3 false).failedAttempts = 3 ∧
     (setup 3 false).fails = 3 ∧
     (setup 3 false).halted = false) :=
  ⟨c3_restart_invariance 2, c3_restart_invariance 3⟩

/-- Witness for the amended C6 at a concrete failing violation write. -/
theorem c6_write_failure_ignored_witness :
    loopStepF false (radioEv ("wrong".data)) (setup 0 false) =
      { loopStepF true (radioEv ("wrong".data)) (setup 0 false) with
          fails := (setup 0 false).fails } :=
  c6_write_failure_ignored (radioEv ("wrong".data)) (setup 0 false)

/-- Witness for C7 at the persisted value 3. -/
theorem c7_factory_reset_witness :
    (setup 3 true).isLocked = true ∧
    (setup 3 true).isDisabled = false ∧
    (setup 3 true).failedAttempts = 0 ∧
    (setup 3 true).fails = 0 ∧
    (setup 3 true).halted = false :=
  c7_factory_reset 3
